import Mathlib

/-!
Verification of the EduStock Pro order/stock/authentication core.

This file gives a shallow embedding, in Lean, of the core data model and
operations of src/app.py and proves the specified properties about them.

Modelling conventions:
* Database tables are lists of rows; SERIAL primary keys are modelled by an
  explicit next-id counter.
* DECIMAL(10,2) money columns are modelled as exact rationals (Rat); INTEGER
  quantity columns as Int; VARCHAR columns as String.
* The psycopg2 connection runs with autocommit off: every statement executed
  inside a try block joins one transaction that becomes visible only at
  conn.commit().  A raised statement jumps to the except branch, which shows
  the error and returns the sentinel value, leaving the committed database
  unchanged.  The parameter failAt says which statement of the write sequence
  (numbered in execution order) raises; none means no storage failure.
* The global conn being None (no database configured) is modelled by the
  Boolean parameter connOk.
* hashlib.sha256 is embedded bit-for-bit below (FIPS 180-4 over the UTF-8
  bytes of the password), with 32-bit words represented as Nat reduced
  mod 2 ^ 32.
-/

/-- Rotate a 32-bit word right by n bits; words are Nats kept below 2 ^ 32. -/
def ror32 (x n : Nat) : Nat := (x / 2 ^ n + x % 2 ^ n * 2 ^ (32 - n)) % 2 ^ 32

/-- Logical right shift of a 32-bit word. -/
def shr32 (x n : Nat) : Nat := x / 2 ^ n

/-- Bitwise complement of a 32-bit word. -/
def not32 (x : Nat) : Nat := 2 ^ 32 - 1 - x % 2 ^ 32

/-- SHA-256 big Sigma-0. -/
def bigS0 (x : Nat) : Nat := Nat.xor (Nat.xor (ror32 x 2) (ror32 x 13)) (ror32 x 22)

/-- SHA-256 big Sigma-1. -/
def bigS1 (x : Nat) : Nat := Nat.xor (Nat.xor (ror32 x 6) (ror32 x 11)) (ror32 x 25)

/-- SHA-256 small sigma-0. -/
def smallS0 (x : Nat) : Nat := Nat.xor (Nat.xor (ror32 x 7) (ror32 x 18)) (shr32 x 3)

/-- SHA-256 small sigma-1. -/
def smallS1 (x : Nat) : Nat := Nat.xor (Nat.xor (ror32 x 17) (ror32 x 19)) (shr32 x 10)

/-- SHA-256 choice function. -/
def chf (x y z : Nat) : Nat := Nat.xor (Nat.land x y) (Nat.land (not32 x) z)

/-- SHA-256 majority function. -/
def majf (x y z : Nat) : Nat := Nat.xor (Nat.xor (Nat.land x y) (Nat.land x z)) (Nat.land y z)

/-- The 64 SHA-256 round constants of FIPS 180-4, written in decimal. -/
def sha256K : List Nat :=
  [1116352408, 1899447441, 3049323471, 3921009573, 961987163,
   1508970993, 2453635748, 2870763221, 3624381080, 310598401,
   607225278, 1426881987, 1925078388, 2162078206, 2614888103,
   3248222580, 3835390401, 4022224774, 264347078, 604807628,
   770255983, 1249150122, 1555081692, 1996064986, 2554220882,
   2821834349, 2952996808, 3210313671, 3336571891, 3584528711,
   113926993, 338241895, 666307205, 773529912, 1294757372,
   1396182291, 1695183700, 1986661051, 2177026350, 2456956037,
   2730485921, 2820302411, 3259730800, 3345764771, 3516065817,
   3600352804, 4094571909, 275423344, 430227734, 506948616,
   659060556, 883997877, 958139571, 1322822218, 1537002063,
   1747873779, 1955562222, 2024104815, 2227730452, 2361852424,
   2428436474, 2756734187, 3204031479, 3329325298]

/-- The SHA-256 initial hash value of FIPS 180-4, written in decimal. -/
def sha256H0 : List Nat :=
  [1779033703, 3144134277, 1013904242, 2773480762,
   1359893119, 2600822924, 528734635, 1541459225]

/-- One SHA-256 compression round on the working state (a, b, c, d, e, f, g, h). -/
def sha256Round (s : Nat × Nat × Nat × Nat × Nat × Nat × Nat × Nat) (k w : Nat) :
    Nat × Nat × Nat × Nat × Nat × Nat × Nat × Nat :=
  match s with
  | (a, b, c, d, e, f, g, h) =>
    let t1 := (h + bigS1 e + chf e f g + k + w) % 2 ^ 32
    let t2 := (bigS0 a + majf a b c) % 2 ^ 32
    ((t1 + t2) % 2 ^ 32, a, b, c, (d + t1) % 2 ^ 32, e, f, g)

/-- Extend the 16-word message block to the 64-word schedule (fuel = 48). -/
def sha256Extend : Nat → List Nat → List Nat
  | 0, ws => ws
  | k + 1, ws =>
    let n := ws.length
    let x := (ws.getD (n - 16) 0 + smallS0 (ws.getD (n - 15) 0) + ws.getD (n - 7) 0 +
              smallS1 (ws.getD (n - 2) 0)) % 2 ^ 32
    sha256Extend k (ws ++ [x])

/-- Process one 16-word block, updating the 8-word hash state. -/
def sha256Block (h : List Nat) (block : List Nat) : List Nat :=
  let ws := sha256Extend 48 block
  let s0 := (h.getD 0 0, h.getD 1 0, h.getD 2 0, h.getD 3 0,
             h.getD 4 0, h.getD 5 0, h.getD 6 0, h.getD 7 0)
  match (sha256K.zip ws).foldl (fun s p => sha256Round s p.1 p.2) s0 with
  | (a, b, c, d, e, f, g, hh) =>
    [(h.getD 0 0 + a) % 2 ^ 32, (h.getD 1 0 + b) % 2 ^ 32, (h.getD 2 0 + c) % 2 ^ 32,
     (h.getD 3 0 + d) % 2 ^ 32, (h.getD 4 0 + e) % 2 ^ 32, (h.getD 5 0 + f) % 2 ^ 32,
     (h.getD 6 0 + g) % 2 ^ 32, (h.getD 7 0 + hh) % 2 ^ 32]

/-- UTF-8 encoding of one character, as str.encode produces. -/
def utf8Bytes (c : Char) : List Nat :=
  let n := c.toNat
  if n < 128 then [n]
  else if n < 2048 then [192 + n / 64, 128 + n % 64]
  else if n < 65536 then [224 + n / 4096, 128 + n / 64 % 64, 128 + n % 64]
  else [240 + n / 262144, 128 + n / 4096 % 64, 128 + n / 64 % 64, 128 + n % 64]

/-- UTF-8 bytes of a string (the str.encode of Python). -/
def strBytes (s : String) : List Nat := s.data.foldr (fun c acc => utf8Bytes c ++ acc) []

/-- Big-endian 8-byte encoding of the bit length. -/
def lenBytes8 (n : Nat) : List Nat :=
  [n / 2 ^ 56 % 256, n / 2 ^ 48 % 256, n / 2 ^ 40 % 256, n / 2 ^ 32 % 256,
   n / 2 ^ 24 % 256, n / 2 ^ 16 % 256, n / 2 ^ 8 % 256, n % 256]

/-- SHA-256 padding: append 0x80, zeros to 56 mod 64 bytes, then the bit length. -/
def sha256Pad (msg : List Nat) : List Nat :=
  msg ++ [128] ++ List.replicate ((119 - msg.length % 64) % 64) 0 ++ lenBytes8 (8 * msg.length)

/-- Group bytes into big-endian 32-bit words. -/
def bytesToWords : List Nat → List Nat
  | b0 :: b1 :: b2 :: b3 :: rest => (((b0 * 256 + b1) * 256 + b2) * 256 + b3) :: bytesToWords rest
  | _ => []

/-- Fold sha256Block over consecutive 16-word blocks (fuel bounds the block count). -/
def sha256Blocks : Nat → List Nat → List Nat → List Nat
  | 0, h, _ => h
  | fuel + 1, h, ws =>
    if ws.isEmpty then h else sha256Blocks fuel (sha256Block h (ws.take 16)) (ws.drop 16)

/-- SHA-256 digest of a byte list, as eight 32-bit words. -/
def sha256Words (msg : List Nat) : List Nat :=
  let ws := bytesToWords (sha256Pad msg)
  sha256Blocks ws.length sha256H0 ws

/-- Lower-case hex digit. -/
def hexChar (n : Nat) : Char := if n < 10 then Char.ofNat (48 + n) else Char.ofNat (87 + n)

/-- Eight hex digits of one 32-bit word. -/
def wordHex (w : Nat) : List Char :=
  [hexChar (w / 16 ^ 7 % 16), hexChar (w / 16 ^ 6 % 16), hexChar (w / 16 ^ 5 % 16),
   hexChar (w / 16 ^ 4 % 16), hexChar (w / 16 ^ 3 % 16), hexChar (w / 16 ^ 2 % 16),
   hexChar (w / 16 % 16), hexChar (w % 16)]

/-- make_hashes (src/app.py lines 75-76): the sha256 hexdigest of the UTF-8
encoded password. -/
def make_hashes (password : String) : String :=
  String.mk ((sha256Words (strBytes password)).foldr (fun w acc => wordHex w ++ acc) [])

/-- check_hashes (src/app.py lines 78-79): compare the recomputed hash with the
stored hash text. -/
def check_hashes (password hashed_text : String) : Bool :=
  make_hashes password == hashed_text

/-- A row of the usuarios table (id SERIAL, username UNIQUE, password hash,
nivel). -/
structure Usuario where
  id : Nat
  username : String
  password : String
  nivel : String
deriving DecidableEq

/-- A row of the estoque table: UNIQUE(escola_id, produto_id, tamanho) with an
integer quantidade. -/
structure StockEntry where
  escola_id : Nat
  produto_id : Nat
  tamanho : String
  quantidade : Int
deriving DecidableEq

/-- A row of the pedidos table (date and created_at columns omitted: no claim
mentions them). -/
structure Pedido where
  id : Nat
  cliente_id : Nat
  escola_id : Nat
  status : String
  total : Rat
  desconto : Rat
deriving DecidableEq

/-- A row of the itens_pedido table. -/
structure ItemPedido where
  pedido_id : Nat
  produto_id : Nat
  tamanho : String
  quantidade : Int
  preco_unitario : Rat
deriving DecidableEq

/-- One input line of criar_pedido: the item dict with keys produto_id,
tamanho, quantidade, preco_unitario. -/
structure Item where
  produto_id : Nat
  tamanho : String
  quantidade : Int
  preco_unitario : Rat
deriving DecidableEq

/-- The committed database state: the tables the verified operations touch,
plus the next SERIAL id for pedidos. -/
structure DB where
  estoque : List StockEntry
  pedidos : List Pedido
  itens_pedido : List ItemPedido
  usuarios : List Usuario
  next_pedido_id : Nat
deriving DecidableEq

/-- Row predicate of the WHERE escola_id = x AND produto_id = y AND
tamanho = z clauses on estoque. -/
def stockKeyMatch (escola_id produto_id : Nat) (tamanho : String) (e : StockEntry) : Bool :=
  e.escola_id == escola_id && e.produto_id == produto_id && e.tamanho == tamanho

/-- login_user (src/app.py lines 116-128): fetch the row with the given
username (username is UNIQUE, so at most one row matches) and return it when
check_hashes accepts the password; otherwise return None. -/
def login_user (connOk : Bool) (usuarios : List Usuario) (username password : String) :
    Option Usuario :=
  if connOk = false then none
  else
    match usuarios.find? (fun u => u.username == username) with
    | some u => if check_hashes password u.password then some u else none
    | none => none

/-- add_user (src/app.py lines 101-114): INSERT the user with the hashed
password; a UNIQUE(username) violation raises, is caught, and yields False. -/
def add_user (connOk : Bool) (usuarios : List Usuario) (next_id : Nat)
    (username password nivel : String) : Bool × List Usuario :=
  if connOk = false then (false, usuarios)
  else if usuarios.any (fun u => u.username == username) then (false, usuarios)
  else (true, usuarios ++ [⟨next_id, username, make_hashes password, nivel⟩])

/-- update_estoque (src/app.py lines 338-353): INSERT the row, and ON CONFLICT
on the key set quantidade to the same given value. -/
def update_estoque (connOk : Bool) (db : DB) (escola_id produto_id : Nat) (tamanho : String)
    (quantidade : Int) : Bool × DB :=
  if connOk = false then (false, db)
  else if db.estoque.any (stockKeyMatch escola_id produto_id tamanho) then
    (true,
     { db with
       estoque := db.estoque.map (fun e =>
         if stockKeyMatch escola_id produto_id tamanho e then { e with quantidade := quantidade }
         else e) })
  else (true, { db with estoque := db.estoque ++ [⟨escola_id, produto_id, tamanho, quantidade⟩] })

/-- The stock decrement statement of criar_pedido (src/app.py lines 378-382):
UPDATE estoque SET quantidade = quantidade - amount WHERE the key matches.
No row is inserted, and a missing key updates nothing. -/
def decrementEstoque (db : DB) (escola_id produto_id : Nat) (tamanho : String) (amount : Int) :
    DB :=
  { db with
    estoque := db.estoque.map (fun e =>
      if stockKeyMatch escola_id produto_id tamanho e then
        { e with quantidade := e.quantidade - amount }
      else e) }

/-- The INSERT INTO pedidos ... RETURNING id statement (src/app.py lines
364-368); status and the serial id take their defaults. -/
def insertPedido (db : DB) (cliente_id escola_id : Nat) (total desconto : Rat) : DB × Nat :=
  let pid := db.next_pedido_id
  ({ db with
     pedidos := db.pedidos ++ [⟨pid, cliente_id, escola_id, "Pendente", total, desconto⟩],
     next_pedido_id := pid + 1 }, pid)

/-- The INSERT INTO itens_pedido statement (src/app.py lines 372-375). -/
def insertItemPedido (db : DB) (pedido_id : Nat) (item : Item) : DB :=
  { db with
    itens_pedido := db.itens_pedido ++
      [⟨pedido_id, item.produto_id, item.tamanho, item.quantidade, item.preco_unitario⟩] }

/-- The per-item loop of criar_pedido (src/app.py lines 371-382).  Statement k
of the write sequence raises when failAt = some k; raising returns none, which
the caller turns into the aborted-transaction outcome.  Each iteration runs
the item INSERT (statement k) then the stock UPDATE (statement k + 1). -/
def pedidoLoop (failAt : Option Nat) (escola_id pedido_id : Nat) :
    List Item → Nat → DB → Option DB
  | [], _, db => some db
  | item :: rest, k, db =>
    if failAt = some k then none
    else
      let db1 := insertItemPedido db pedido_id item
      if failAt = some (k + 1) then none
      else
        let db2 := decrementEstoque db1 escola_id item.produto_id item.tamanho item.quantidade
        pedidoLoop failAt escola_id pedido_id rest (k + 2) db2

/-- criar_pedido (src/app.py lines 355-388).  Returns None with the database
unchanged when conn is missing; otherwise computes the total, runs the write
sequence (statement 0 = INSERT pedidos, statements 1 + 2i and 2 + 2i = the
item INSERT and stock UPDATE of line i, statement 1 + 2n = conn.commit()), and
returns the new order id.  Any raising statement reaches the except branch,
which reports the error and returns None; since nothing was committed, the
visible database is unchanged. -/
def criar_pedido (connOk : Bool) (failAt : Option Nat) (db : DB)
    (cliente_id escola_id : Nat) (itens : List Item) (desconto : Rat) : Option Nat × DB :=
  if connOk = false then (none, db)
  else
    let total := (itens.map (fun item => (item.quantidade : Rat) * item.preco_unitario)).sum -
      desconto
    if failAt = some 0 then (none, db)
    else
      let r := insertPedido db cliente_id escola_id total desconto
      match pedidoLoop failAt escola_id r.2 itens 1 r.1 with
      | none => (none, db)
      | some pending =>
        if failAt = some (1 + 2 * itens.length) then (none, db) else (some r.2, pending)

/-- The itens_pedido row written for one input line of the order pedido_id. -/
def mkItemRow (pedido_id : Nat) (item : Item) : ItemPedido :=
  ⟨pedido_id, item.produto_id, item.tamanho, item.quantidade, item.preco_unitario⟩

/-- Total quantity the order lines demand from one stock entry. -/
def demanda (escola_id : Nat) (itens : List Item) (e : StockEntry) : Int :=
  (itens.map (fun item =>
    if stockKeyMatch escola_id item.produto_id item.tamanho e then item.quantidade else 0)).sum

/-- The key triple of a stock entry. -/
def stockKey (e : StockEntry) : Nat × Nat × String := (e.escola_id, e.produto_id, e.tamanho)

theorem stockKeyMatch_set_quantidade (escola_id produto_id : Nat) (tamanho : String)
    (e : StockEntry) (q : Int) :
    stockKeyMatch escola_id produto_id tamanho { e with quantidade := q } =
      stockKeyMatch escola_id produto_id tamanho e := rfl

theorem demanda_set_quantidade (escola_id : Nat) (itens : List Item) (e : StockEntry) (q : Int) :
    demanda escola_id itens { e with quantidade := q } = demanda escola_id itens e := rfl

theorem demanda_cons (escola_id : Nat) (item : Item) (rest : List Item) (e : StockEntry) :
    demanda escola_id (item :: rest) e =
      (if stockKeyMatch escola_id item.produto_id item.tamanho e then item.quantidade else 0) +
        demanda escola_id rest e := by
  simp [demanda]

theorem map_dec_demanda (escola_id : Nat) (item : Item) (rest : List Item)
    (l : List StockEntry) :
    (l.map (fun e =>
        if stockKeyMatch escola_id item.produto_id item.tamanho e then
          { e with quantidade := e.quantidade - item.quantidade }
        else e)).map
      (fun e => { e with quantidade := e.quantidade - demanda escola_id rest e }) =
    l.map (fun e => { e with quantidade := e.quantidade - demanda escola_id (item :: rest) e }) := by
  rw [List.map_map]
  refine congrArg (fun f => l.map f) (funext fun e => ?_)
  by_cases h : stockKeyMatch escola_id item.produto_id item.tamanho e
  · simp only [Function.comp, h, if_pos, demanda_set_quantidade, demanda_cons, if_true]
    simp only [StockEntry.mk.injEq, true_and]
    omega
  · simp only [Function.comp, h, if_neg, demanda_cons, if_false]
    simp only [Bool.false_eq_true, if_false, StockEntry.mk.injEq, true_and]
    omega

theorem pedidoLoop_none (escola_id pedido_id : Nat) :
    ∀ (itens : List Item) (k : Nat) (db : DB),
      pedidoLoop none escola_id pedido_id itens k db =
        some { db with
          itens_pedido := db.itens_pedido ++ itens.map (mkItemRow pedido_id),
          estoque := db.estoque.map (fun e =>
            { e with quantidade := e.quantidade - demanda escola_id itens e }) }
  | [], k, db => by
    have h2 : db.estoque.map (fun e =>
        { e with quantidade := e.quantidade - demanda escola_id [] e }) = db.estoque := by
      have he : (fun (e : StockEntry) =>
          { e with quantidade := e.quantidade - demanda escola_id [] e }) = fun e => e := by
        funext e
        simp [demanda]
      rw [he]
      exact List.map_id' db.estoque
    simp only [pedidoLoop, List.map_nil, List.append_nil, h2]
  | item :: rest, k, db => by
    have step : pedidoLoop none escola_id pedido_id (item :: rest) k db =
        pedidoLoop none escola_id pedido_id rest (k + 2)
          (decrementEstoque (insertItemPedido db pedido_id item) escola_id item.produto_id
            item.tamanho item.quantidade) := by
      simp [pedidoLoop]
    rw [step, pedidoLoop_none escola_id pedido_id rest (k + 2) _]
    simp only [decrementEstoque, insertItemPedido, Option.some.injEq, DB.mk.injEq,
      List.map_cons, List.append_assoc, List.singleton_append, true_and, and_true]
    exact ⟨map_dec_demanda escola_id item rest db.estoque, rfl⟩

theorem criar_pedido_ok (db : DB) (cliente_id escola_id : Nat) (itens : List Item)
    (desconto : Rat) :
    criar_pedido true none db cliente_id escola_id itens desconto =
      (some db.next_pedido_id,
       { db with
         pedidos := db.pedidos ++
           [⟨db.next_pedido_id, cliente_id, escola_id, "Pendente",
             (itens.map (fun item => (item.quantidade : Rat) * item.preco_unitario)).sum -
               desconto, desconto⟩],
         itens_pedido := db.itens_pedido ++ itens.map (mkItemRow db.next_pedido_id),
         estoque := db.estoque.map (fun e =>
           { e with quantidade := e.quantidade - demanda escola_id itens e }),
         next_pedido_id := db.next_pedido_id + 1 }) := by
  simp only [criar_pedido, insertPedido, Bool.true_eq_false, if_false, reduceCtorEq]
  rw [pedidoLoop_none]

theorem pedidoLoop_fail (escola_id pedido_id : Nat) :
    ∀ (itens : List Item) (k j : Nat) (db : DB), k ≤ j → j < k + 2 * itens.length →
      pedidoLoop (some j) escola_id pedido_id itens k db = none
  | [], k, j, db, h1, h2 => by
    simp only [List.length_nil, Nat.mul_zero, Nat.add_zero] at h2
    omega
  | item :: rest, k, j, db, h1, h2 => by
    by_cases hj0 : j = k
    · simp [pedidoLoop, hj0]
    · by_cases hj1 : j = k + 1
      · simp [pedidoLoop, hj1, Ne.symm hj0]
      · have h1a : k + 2 ≤ j := by omega
        have h2a : j < (k + 2) + 2 * rest.length := by
          simp only [List.length_cons] at h2
          omega
        simp only [pedidoLoop, Option.some.injEq, if_neg (fun h => hj0 h),
          if_neg (fun h => hj1 h)]
        exact pedidoLoop_fail escola_id pedido_id rest (k + 2) j _ h1a h2a

theorem pedidoLoop_pass (escola_id pedido_id : Nat) :
    ∀ (itens : List Item) (k j : Nat) (db : DB), k + 2 * itens.length ≤ j →
      pedidoLoop (some j) escola_id pedido_id itens k db =
        pedidoLoop none escola_id pedido_id itens k db
  | [], k, j, db, h => by simp [pedidoLoop]
  | item :: rest, k, j, db, h => by
    have hlen : k + 2 * (item :: rest).length = (k + 2) + 2 * rest.length := by
      simp only [List.length_cons]
      omega
    rw [hlen] at h
    have hj0 : j ≠ k := by omega
    have hj1 : j ≠ k + 1 := by omega
    simp only [pedidoLoop, Option.some.injEq, if_neg (fun h => hj0 h),
      if_neg (fun h => hj1 h), reduceCtorEq, if_false]
    exact pedidoLoop_pass escola_id pedido_id rest (k + 2) j _ h

theorem criar_pedido_fail (db : DB) (cliente_id escola_id : Nat) (itens : List Item)
    (desconto : Rat) (j : Nat) (hj : j ≤ 1 + 2 * itens.length) :
    criar_pedido true (some j) db cliente_id escola_id itens desconto = (none, db) := by
  by_cases h0 : j = 0
  · simp [criar_pedido, h0]
  · by_cases hc : j = 1 + 2 * itens.length
    · simp only [criar_pedido, Bool.true_eq_false, if_false, Option.some.injEq,
        if_neg (fun h => h0 h), reduceCtorEq]
      rw [pedidoLoop_pass escola_id _ itens 1 j _ (by omega), pedidoLoop_none]
      simp [hc]
    · have hrange : 1 ≤ j ∧ j < 1 + 2 * itens.length := by omega
      simp only [criar_pedido, Bool.true_eq_false, if_false, Option.some.injEq,
        if_neg (fun h => h0 h), reduceCtorEq]
      rw [pedidoLoop_fail escola_id _ itens 1 j _ hrange.1 hrange.2]

theorem map_eq_self_of_eq {α : Type} (l : List α) (f : α → α) (h : ∀ a ∈ l, f a = a) :
    l.map f = l := by
  induction l with
  | nil => rfl
  | cons x xs ih =>
    simp only [List.map_cons, h x (List.mem_cons_self x xs),
      ih (fun a ha => h a (List.mem_cons_of_mem x ha))]

theorem login_user_some_iff (n p : String) (u : Usuario) :
    ∀ (usuarios : List Usuario),
      usuarios.Pairwise (fun a b => a.username ≠ b.username) →
      (login_user true usuarios n p = some u ↔
        u ∈ usuarios ∧ u.username = n ∧ u.password = make_hashes p)
  | [], _ => by simp [login_user]
  | v :: tl, hnu => by
    have hhead := (List.pairwise_cons.mp hnu).1
    have htl := (List.pairwise_cons.mp hnu).2
    by_cases hv : v.username = n
    · have hlogin : login_user true (v :: tl) n p =
          (if check_hashes p v.password then some v else none) := by
        simp [login_user, List.find?_cons, hv]
      rw [hlogin]
      constructor
      · intro h
        have hck : check_hashes p v.password = true := by
          by_contra hck
          rw [if_neg hck] at h
          exact Option.noConfusion h
        rw [if_pos hck] at h
        have huv : u = v := (Option.some.inj h).symm
        subst huv
        have hpw : make_hashes p = u.password := by simpa [check_hashes] using hck
        exact ⟨List.mem_cons_self u tl, hv, hpw.symm⟩
      · rintro ⟨hmem, hun, hpw⟩
        have huv : u = v := by
          rcases List.mem_cons.mp hmem with h | h
          · exact h
          · exact absurd (hun.trans hv.symm) (Ne.symm (hhead u h))
        subst huv
        rw [if_pos (by simp [check_hashes, hpw])]
    · have hlogin : login_user true (v :: tl) n p = login_user true tl n p := by
        simp [login_user, List.find?_cons, hv]
      rw [hlogin, login_user_some_iff n p u tl htl]
      constructor
      · rintro ⟨hmem, hrest⟩
        exact ⟨List.mem_cons_of_mem v hmem, hrest⟩
      · rintro ⟨hmem, hun, hpw⟩
        rcases List.mem_cons.mp hmem with h | h
        · exact absurd (h ▸ hun) hv
        · exact ⟨h, hun, hpw⟩

/-- C1: for every valid order request with a non-empty list of N lines,
criar_pedido creates exactly one Order row, exactly N OrderLine rows in input
order, and for each line decrements the StockEntry matching
(schoolId, productId, size) by that line quantity, creating no new StockEntry:
the multiset of stock keys is unchanged. -/
theorem claim_C1_placeOrder_rows (db : DB) (cliente_id escola_id : Nat) (itens : List Item)
    (desconto : Rat) (_hne : itens ≠ []) (_hq : ∀ item ∈ itens, 0 < item.quantidade) :
    criar_pedido true none db cliente_id escola_id itens desconto =
      (some db.next_pedido_id,
       { db with
         pedidos := db.pedidos ++
           [⟨db.next_pedido_id, cliente_id, escola_id, "Pendente",
             (itens.map (fun item => (item.quantidade : Rat) * item.preco_unitario)).sum -
               desconto, desconto⟩],
         itens_pedido := db.itens_pedido ++ itens.map (mkItemRow db.next_pedido_id),
         estoque := db.estoque.map (fun e =>
           { e with quantidade := e.quantidade - demanda escola_id itens e }),
         next_pedido_id := db.next_pedido_id + 1 }) ∧
    (criar_pedido true none db cliente_id escola_id itens desconto).2.estoque.map stockKey =
      db.estoque.map stockKey ∧
    (criar_pedido true none db cliente_id escola_id itens desconto).2.itens_pedido.length =
      db.itens_pedido.length + itens.length := by
  refine ⟨criar_pedido_ok db cliente_id escola_id itens desconto, ?_, ?_⟩
  · rw [criar_pedido_ok]
    exact List.map_map stockKey _ db.estoque
  · rw [criar_pedido_ok]
    simp

theorem claim_C1_witness :
    criar_pedido true none (⟨[⟨2, 7, "m", 3⟩], [], [], [], 1⟩ : DB) 4 2
        [⟨7, "m", 5, (10 : Rat)⟩] 5 =
      (some 1,
       ⟨[⟨2, 7, "m", -2⟩], [⟨1, 4, 2, "Pendente", 45, 5⟩], [⟨1, 7, "m", 5, 10⟩], [], 2⟩) := by
  have h := claim_C1_placeOrder_rows ⟨[⟨2, 7, "m", 3⟩], [], [], [], 1⟩ 4 2
    [⟨7, "m", 5, (10 : Rat)⟩] 5 (by decide) (by decide)
  rw [h.1]
  norm_num [mkItemRow, demanda, stockKeyMatch, Prod.ext_iff, DB.mk.injEq, Pedido.mk.injEq,
    StockEntry.mk.injEq]

/-- C2: the stored total of the Order created by criar_pedido equals the sum of
quantity times unit price over the lines minus the discount, exactly, computed
at creation; when the discount exceeds the line sum the total is negative. -/
theorem claim_C2_total_formula (db : DB) (cliente_id escola_id : Nat) (itens : List Item)
    (desconto : Rat) :
    ∃ o : Pedido,
      (criar_pedido true none db cliente_id escola_id itens desconto).2.pedidos =
        db.pedidos ++ [o] ∧
      o.total = (itens.map (fun item => (item.quantidade : Rat) * item.preco_unitario)).sum -
        desconto ∧
      o.desconto = desconto ∧
      ((itens.map (fun item => (item.quantidade : Rat) * item.preco_unitario)).sum < desconto →
        o.total < 0) := by
  refine ⟨⟨db.next_pedido_id, cliente_id, escola_id, "Pendente",
    (itens.map (fun item => (item.quantidade : Rat) * item.preco_unitario)).sum - desconto,
    desconto⟩, ?_, rfl, rfl, fun h => sub_neg.mpr h⟩
  rw [criar_pedido_ok]

/-- C3: criar_pedido is atomic: when any statement of the write sequence
(including the final commit) fails, the visible database afterwards is exactly
the database before the call and the caller receives the failure sentinel,
which no successful call returns. -/
theorem claim_C3_atomicity (db : DB) (cliente_id escola_id : Nat) (itens : List Item)
    (desconto : Rat) (j : Nat) (hj : j ≤ 1 + 2 * itens.length) :
    criar_pedido true (some j) db cliente_id escola_id itens desconto = (none, db) ∧
    (criar_pedido true (some j) db cliente_id escola_id itens desconto).1 ≠
      (criar_pedido true none db cliente_id escola_id itens desconto).1 := by
  refine ⟨criar_pedido_fail db cliente_id escola_id itens desconto j hj, ?_⟩
  rw [criar_pedido_fail db cliente_id escola_id itens desconto j hj, criar_pedido_ok]
  simp

theorem claim_C3_witness :
    criar_pedido true (some 1) (⟨[⟨1, 7, "m", 4⟩], [], [], [], 1⟩ : DB) 1 1
        [⟨7, "m", 1, (1 : Rat)⟩] 0 =
      (none, ⟨[⟨1, 7, "m", 4⟩], [], [], [], 1⟩) :=
  (claim_C3_atomicity ⟨[⟨1, 7, "m", 4⟩], [], [], [], 1⟩ 1 1 [⟨7, "m", 1, (1 : Rat)⟩] 0 1
    (by decide)).1

/-- C4 counterexample: criar_pedido called with an empty line list does not
fail: it returns a new order id and persists an Order row, contradicting the
claim that it fails with ValidationError and writes nothing. -/
theorem claim_C4_counterexample :
    (criar_pedido true none (⟨[], [], [], [], 1⟩ : DB) 1 1 [] (5 : Rat)).1 = some 1 ∧
    (criar_pedido true none (⟨[], [], [], [], 1⟩ : DB) 1 1 [] (5 : Rat)).2.pedidos ≠ [] := by
  decide

/-- C4 (amended): criar_pedido performs no validation: called with an empty
line list or with a line of quantity at most zero it still succeeds and
returns the new order id; in the empty case it persists one Order row with
total equal to minus the discount, no OrderLine rows, and no stock change. -/
theorem claim_C4_amended_no_validation (db : DB) (cliente_id escola_id : Nat)
    (itens : List Item) (desconto : Rat)
    (h : itens = [] ∨ ∃ item ∈ itens, item.quantidade ≤ 0) :
    (criar_pedido true none db cliente_id escola_id itens desconto).1 = some db.next_pedido_id ∧
    (itens = [] →
      (criar_pedido true none db cliente_id escola_id itens desconto).2 =
        { db with
          pedidos := db.pedidos ++
            [⟨db.next_pedido_id, cliente_id, escola_id, "Pendente", -desconto, desconto⟩],
          next_pedido_id := db.next_pedido_id + 1 }) := by
  constructor
  · rw [criar_pedido_ok]
  · rintro rfl
    rw [criar_pedido_ok]
    have h2 : db.estoque.map (fun e =>
        { e with quantidade := e.quantidade - demanda escola_id [] e }) = db.estoque := by
      have he : (fun (e : StockEntry) =>
          { e with quantidade := e.quantidade - demanda escola_id [] e }) = fun e => e := by
        funext e
        simp [demanda]
      rw [he]
      exact List.map_id' db.estoque
    simp only [h2, List.map_nil, List.append_nil, List.sum_nil, zero_sub]

theorem claim_C4_amended_witness :
    (criar_pedido true none (⟨[⟨1, 1, "m", 2⟩], [], [], [], 1⟩ : DB) 1 1 [] (5 : Rat)).1 =
      some 1 ∧
    (criar_pedido true none (⟨[⟨1, 1, "m", 2⟩], [], [], [], 1⟩ : DB) 1 1 [] (5 : Rat)).2 =
      ⟨[⟨1, 1, "m", 2⟩], [⟨1, 1, 1, "Pendente", -5, 5⟩], [], [], 2⟩ := by
  have h := claim_C4_amended_no_validation ⟨[⟨1, 1, "m", 2⟩], [], [], [], 1⟩ 1 1 [] 5
    (Or.inl rfl)
  exact ⟨h.1, (h.2 rfl).trans (by decide)⟩

/-- C5: the stock decrement of criar_pedido is unconditional: it subtracts the
line quantity from the matching StockEntry regardless of the current quantity,
so when the line quantity exceeds the stock the resulting quantity is strictly
negative. -/
theorem claim_C5_unconditional_decrement (db : DB) (cliente_id escola_id produto_id : Nat)
    (tamanho : String) (a : Int) (preco desconto : Rat) (st : StockEntry)
    (hmem : st ∈ db.estoque)
    (hkey : stockKeyMatch escola_id produto_id tamanho st = true) :
    { st with quantidade := st.quantidade - a } ∈
      (criar_pedido true none db cliente_id escola_id [⟨produto_id, tamanho, a, preco⟩]
        desconto).2.estoque ∧
    (st.quantidade < a → st.quantidade - a < 0) := by
  constructor
  · rw [criar_pedido_ok]
    have hd : demanda escola_id [⟨produto_id, tamanho, a, preco⟩] st = a := by
      simp [demanda, hkey]
    refine List.mem_map.mpr ⟨st, hmem, ?_⟩
    rw [hd]
  · omega

theorem claim_C5_witness :
    (⟨2, 7, "m", (-4 : Int)⟩ : StockEntry) ∈
      (criar_pedido true none (⟨[⟨2, 7, "m", 1⟩], [], [], [], 1⟩ : DB) 1 2
        [⟨7, "m", 5, (10 : Rat)⟩] 0).2.estoque ∧
    ((-4 : Int) < 0) := by
  have h := claim_C5_unconditional_decrement ⟨[⟨2, 7, "m", 1⟩], [], [], [], 1⟩ 1 2 7 "m" 5 10 0
    ⟨2, 7, "m", 1⟩ (by decide) (by decide)
  exact ⟨h.1, h.2 (by decide)⟩

/-- C6: the stock decrement applied twice with amounts a then b to the same key
leaves each matching entry at its quantity minus a minus b, and applied to a
key with no StockEntry row it is a silent no-op: the database, and in
particular the set of stock keys, is unchanged. -/
theorem claim_C6_decrementStock_algebra (db : DB) (escola_id produto_id : Nat)
    (tamanho : String) (a b : Int) :
    decrementEstoque (decrementEstoque db escola_id produto_id tamanho a) escola_id produto_id
        tamanho b =
      { db with
        estoque := db.estoque.map (fun e =>
          if stockKeyMatch escola_id produto_id tamanho e then
            { e with quantidade := e.quantidade - a - b }
          else e) } ∧
    ((∀ e ∈ db.estoque, stockKeyMatch escola_id produto_id tamanho e = false) →
      decrementEstoque db escola_id produto_id tamanho a = db) := by
  constructor
  · simp only [decrementEstoque, DB.mk.injEq, List.map_map, true_and, and_true]
    refine congrArg (fun f => db.estoque.map f) (funext fun e => ?_)
    by_cases h : stockKeyMatch escola_id produto_id tamanho e
    · simp only [Function.comp, h, if_true, stockKeyMatch_set_quantidade]
    · simp only [Function.comp, h, Bool.false_eq_true, if_false]
  · intro h
    simp only [decrementEstoque]
    have : db.estoque.map (fun e =>
        if stockKeyMatch escola_id produto_id tamanho e then
          { e with quantidade := e.quantidade - a }
        else e) = db.estoque :=
      map_eq_self_of_eq db.estoque _ (fun e he => by simp [h e he])
    rw [this]

theorem claim_C6_witness :
    decrementEstoque (decrementEstoque (⟨[⟨1, 2, "m", 10⟩], [], [], [], 1⟩ : DB) 1 2 "m" 3)
        1 2 "m" 4 =
      (⟨[⟨1, 2, "m", 3⟩], [], [], [], 1⟩ : DB) ∧
    decrementEstoque (⟨[⟨1, 2, "m", 10⟩], [], [], [], 1⟩ : DB) 9 9 "z" 3 =
      (⟨[⟨1, 2, "m", 10⟩], [], [], [], 1⟩ : DB) := by
  have h1 := claim_C6_decrementStock_algebra ⟨[⟨1, 2, "m", 10⟩], [], [], [], 1⟩ 1 2 "m" 3 4
  have h2 := claim_C6_decrementStock_algebra ⟨[⟨1, 2, "m", 10⟩], [], [], [], 1⟩ 9 9 "z" 3 4
  exact ⟨h1.1.trans (by decide), h2.2 (by decide)⟩

/-- C7: update_estoque is an idempotent replace: when the key exists it
overwrites the stored quantity with the given value (not additively), when the
key is absent it inserts the entry with that quantity, and running the same
call twice yields the same result as running it once. -/
theorem claim_C7_setStock_idempotent (db : DB) (escola_id produto_id : Nat) (tamanho : String)
    (q : Int) :
    (db.estoque.any (stockKeyMatch escola_id produto_id tamanho) = true →
      (update_estoque true db escola_id produto_id tamanho q).2.estoque =
        db.estoque.map (fun e =>
          if stockKeyMatch escola_id produto_id tamanho e then { e with quantidade := q }
          else e)) ∧
    (db.estoque.any (stockKeyMatch escola_id produto_id tamanho) = false →
      (update_estoque true db escola_id produto_id tamanho q).2.estoque =
        db.estoque ++ [⟨escola_id, produto_id, tamanho, q⟩]) ∧
    update_estoque true (update_estoque true db escola_id produto_id tamanho q).2 escola_id
        produto_id tamanho q = update_estoque true db escola_id produto_id tamanho q := by
  refine ⟨fun h => by simp [update_estoque, h], fun h => by simp [update_estoque, h], ?_⟩
  by_cases hany : db.estoque.any (stockKeyMatch escola_id produto_id tamanho) = true
  · have h1 : update_estoque true db escola_id produto_id tamanho q =
        (true,
         { db with
           estoque := db.estoque.map (fun e =>
             if stockKeyMatch escola_id produto_id tamanho e then { e with quantidade := q }
             else e) }) := by
      simp [update_estoque, hany]
    rw [h1]
    have hany2 : (db.estoque.map (fun e =>
        if stockKeyMatch escola_id produto_id tamanho e then { e with quantidade := q }
        else e)).any (stockKeyMatch escola_id produto_id tamanho) = true := by
      rw [List.any_map]
      have he : (stockKeyMatch escola_id produto_id tamanho ∘ fun e =>
          if stockKeyMatch escola_id produto_id tamanho e then { e with quantidade := q }
          else e) = stockKeyMatch escola_id produto_id tamanho := by
        funext e
        by_cases h : stockKeyMatch escola_id produto_id tamanho e
        · simp only [Function.comp, h, if_true, stockKeyMatch_set_quantidade]
        · simp only [Function.comp, h, Bool.false_eq_true, if_false]
      rw [he]
      exact hany
    simp only [update_estoque, Bool.true_eq_false, if_false, hany2, if_true, List.map_map]
    have he2 : ((fun e =>
        if stockKeyMatch escola_id produto_id tamanho e then { e with quantidade := q }
        else e) ∘ fun e =>
        if stockKeyMatch escola_id produto_id tamanho e then { e with quantidade := q }
        else e) = fun e =>
        if stockKeyMatch escola_id produto_id tamanho e then { e with quantidade := q }
        else e := by
      funext e
      by_cases h : stockKeyMatch escola_id produto_id tamanho e
      · simp only [Function.comp, h, if_true, stockKeyMatch_set_quantidade]
      · simp only [Function.comp, h, Bool.false_eq_true, if_false]
    rw [he2]
  · have hanyf : db.estoque.any (stockKeyMatch escola_id produto_id tamanho) = false :=
      Bool.not_eq_true _ ▸ (Bool.eq_false_iff.mpr (fun hc => hany hc))
    have h1 : update_estoque true db escola_id produto_id tamanho q =
        (true, { db with estoque := db.estoque ++ [⟨escola_id, produto_id, tamanho, q⟩] }) := by
      simp [update_estoque, hanyf]
    rw [h1]
    have hself : stockKeyMatch escola_id produto_id tamanho
        ⟨escola_id, produto_id, tamanho, q⟩ = true := by
      simp [stockKeyMatch]
    have hany2 : (db.estoque ++ ([⟨escola_id, produto_id, tamanho, q⟩] : List StockEntry)).any
        (stockKeyMatch escola_id produto_id tamanho) = true := by
      rw [List.any_append]
      simp [hself]
    simp only [update_estoque, Bool.true_eq_false, if_false, hany2, if_true, List.map_append]
    have hmap1 : db.estoque.map (fun e =>
        if stockKeyMatch escola_id produto_id tamanho e then { e with quantidade := q }
        else e) = db.estoque := by
      refine map_eq_self_of_eq db.estoque _ (fun e he => ?_)
      have := List.any_eq_false.mp hanyf e he
      simp [this]
    have hmap2 : ([⟨escola_id, produto_id, tamanho, q⟩] : List StockEntry).map (fun e =>
        if stockKeyMatch escola_id produto_id tamanho e then { e with quantidade := q }
        else e) = [⟨escola_id, produto_id, tamanho, q⟩] := by
      simp [hself]
    rw [hmap1, hmap2]

theorem claim_C7_witness :
    (update_estoque true (⟨[], [], [], [], 1⟩ : DB) 1 2 "m" 5).2.estoque = [⟨1, 2, "m", 5⟩] ∧
    update_estoque true (update_estoque true (⟨[], [], [], [], 1⟩ : DB) 1 2 "m" 5).2 1 2 "m" 5 =
      update_estoque true (⟨[], [], [], [], 1⟩ : DB) 1 2 "m" 5 := by
  have h := claim_C7_setStock_idempotent ⟨[], [], [], [], 1⟩ 1 2 "m" 5
  exact ⟨(h.2.1 (by decide)).trans (by decide), h.2.2⟩

/-- C8: with usernames unique as the table constraint guarantees, login_user
returns the stored user record u (with all its fields, the nivel role level
included) exactly when u is stored under the given username and the
deterministic unsalted hash of the supplied password equals the stored hash;
in every other case (unknown username or hash mismatch) it returns no user. -/
theorem claim_C8_login_exact (usuarios : List Usuario) (n p : String) (u : Usuario)
    (hnu : usuarios.Pairwise (fun a b => a.username ≠ b.username)) :
    (login_user true usuarios n p = some u ↔
      u ∈ usuarios ∧ u.username = n ∧ u.password = make_hashes p) ∧
    ((∀ v ∈ usuarios, v.username ≠ n ∨ v.password ≠ make_hashes p) →
      login_user true usuarios n p = none) := by
  refine ⟨login_user_some_iff n p u usuarios hnu, ?_⟩
  intro h
  cases hl : login_user true usuarios n p with
  | none => rfl
  | some w =>
    have hw := (login_user_some_iff n p w usuarios hnu).mp hl
    rcases h w hw.1 with hn | hp
    · exact absurd hw.2.1 hn
    · exact absurd hw.2.2 hp

theorem claim_C8_witness :
    login_user true [⟨1, "ana", make_hashes "pw", "Admin"⟩] "ana" "pw" =
      some ⟨1, "ana", make_hashes "pw", "Admin"⟩ ∧
    login_user true [⟨1, "ana", make_hashes "pw", "Admin"⟩] "ana" "wrong" = none := by
  have h1 := claim_C8_login_exact [⟨1, "ana", make_hashes "pw", "Admin"⟩] "ana" "pw"
    ⟨1, "ana", make_hashes "pw", "Admin"⟩ (by simp)
  have h2 := claim_C8_login_exact [⟨1, "ana", make_hashes "pw", "Admin"⟩] "ana" "wrong"
    ⟨1, "ana", make_hashes "pw", "Admin"⟩ (by simp)
  refine ⟨h1.1.mpr ⟨List.mem_singleton.mpr rfl, rfl, rfl⟩, h2.2 ?_⟩
  intro v hv
  right
  rw [List.mem_singleton.mp hv]
  decide

/-- C9: make_hashes is a deterministic pure function of the password;
check_hashes accepts exactly the stored hash equal to make_hashes of the
password; hence a user created by add_user can always log in with the password
used at creation, receiving the created record. -/
theorem claim_C9_hash_roundtrip (p p2 h : String) (hp : p = p2)
    (usuarios : List Usuario) (next_id : Nat) (n nivel : String)
    (hnu : usuarios.Pairwise (fun a b => a.username ≠ b.username))
    (hfresh : ∀ u ∈ usuarios, u.username ≠ n) :
    make_hashes p = make_hashes p2 ∧
    check_hashes p (make_hashes p) = true ∧
    (check_hashes p h = true → h = make_hashes p) ∧
    (add_user true usuarios next_id n p nivel).1 = true ∧
    login_user true (add_user true usuarios next_id n p nivel).2 n p =
      some ⟨next_id, n, make_hashes p, nivel⟩ := by
  have hany : usuarios.any (fun u => u.username == n) = false := by
    rw [List.any_eq_false]
    intro u hu
    simpa using hfresh u hu
  have hadd : add_user true usuarios next_id n p nivel =
      (true, usuarios ++ [⟨next_id, n, make_hashes p, nivel⟩]) := by
    simp [add_user, hany]
  refine ⟨by rw [hp], by simp [check_hashes], ?_, by rw [hadd], ?_⟩
  · intro hc
    have : make_hashes p = h := by simpa [check_hashes] using hc
    exact this.symm
  · rw [hadd]
    have hnu2 : (usuarios ++ ([⟨next_id, n, make_hashes p, nivel⟩] : List Usuario)).Pairwise
        (fun a b => a.username ≠ b.username) := by
      rw [List.pairwise_append]
      refine ⟨hnu, by simp, fun a ha b hb => ?_⟩
      rw [List.mem_singleton.mp hb]
      exact hfresh a ha
    exact (login_user_some_iff n p _ _ hnu2).mpr
      ⟨List.mem_append_right _ (List.mem_singleton.mpr rfl), rfl, rfl⟩

theorem claim_C9_witness :
    check_hashes "pw" (make_hashes "pw") = true ∧
    (add_user true [] 1 "ana" "pw" "Admin").1 = true ∧
    login_user true (add_user true [] 1 "ana" "pw" "Admin").2 "ana" "pw" =
      some ⟨1, "ana", make_hashes "pw", "Admin"⟩ := by
  have h := claim_C9_hash_roundtrip "pw" "pw" (make_hashes "pw") rfl [] 1 "ana" "Admin"
    List.Pairwise.nil (by simp)
  exact ⟨h.2.1, h.2.2.2.1, h.2.2.2.2⟩

/-- C10: criar_pedido never raises: with no database connection, or with a
storage failure at any statement of the write sequence, it returns the same
None sentinel with the database unchanged, so the caller cannot tell the
failure modes apart from the return value; on success it returns the new
order identity. -/
theorem claim_C10_none_sentinel (db : DB) (cliente_id escola_id : Nat) (itens : List Item)
    (desconto : Rat) (failAt : Option Nat) (j : Nat) (hj : j ≤ 1 + 2 * itens.length) :
    criar_pedido false failAt db cliente_id escola_id itens desconto = (none, db) ∧
    criar_pedido true (some j) db cliente_id escola_id itens desconto = (none, db) ∧
    (criar_pedido true (some j) db cliente_id escola_id itens desconto).1 =
      (criar_pedido false failAt db cliente_id escola_id itens desconto).1 ∧
    (criar_pedido true none db cliente_id escola_id itens desconto).1 =
      some db.next_pedido_id := by
  refine ⟨rfl, criar_pedido_fail db cliente_id escola_id itens desconto j hj, ?_, ?_⟩
  · rw [criar_pedido_fail db cliente_id escola_id itens desconto j hj]
    rfl
  · rw [criar_pedido_ok]

theorem claim_C10_witness :
    criar_pedido false none (⟨[], [], [], [], 1⟩ : DB) 1 1 [] (0 : Rat) =
      (none, ⟨[], [], [], [], 1⟩) ∧
    criar_pedido true (some 0) (⟨[], [], [], [], 1⟩ : DB) 1 1 [] (0 : Rat) =
      (none, ⟨[], [], [], [], 1⟩) ∧
    (criar_pedido true none (⟨[], [], [], [], 1⟩ : DB) 1 1 [] (0 : Rat)).1 = some 1 := by
  have h := claim_C10_none_sentinel ⟨[], [], [], [], 1⟩ 1 1 [] 0 none 0 (by decide)
  exact ⟨h.1, h.2.1, h.2.2.2⟩
